import Mathlib

/-!
Shallow embedding of src/JS/theme.js, the single source file of the
Election-map repository: a client-side theme controller that persists a
theme identifier in localStorage under the key "portal-theme", applies it
as the sole class of the document body, marks the matching theme option
active, and wires a dropdown toggle plus a footer-year element.

Modelling choices:
- The DOM is a record holding the body class string, the list of theme
  option elements (each with its data-theme attribute and whether its
  class list contains "is-active"), whether the dropdown's class list
  contains "open", presence of the toggle and dropdown elements, and the
  optional year element's text.
- localStorage is modelled by the single key the script accesses: an
  Option String (none = getItem returns null). Storage access can throw
  (storage disabled); this is modelled by a storageFails flag and storage
  primitives returning Except Unit, with the script's try/catch realised
  by matching on the Except. The script's functions themselves are total:
  no exception escapes them.
- The three optional global hooks (window.recolorMap, window.updatePanel,
  window.updateAbbrBadge) are opaque observers; presence is a Bool per
  hook and an invocation appends the hook's name to a call trace.
- Event dispatch with stopPropagation is resolved into net effects: a
  click on the toggle stops propagation, so the document-level handler
  does not fire and the net effect is a flip of "open"; a click inside
  the dropdown (including on a theme option, which bubbles into the
  dropdown's handler) also stops propagation, so only the handlers
  attached at or below the dropdown run; any other click reaches only
  the document-level handler, which removes "open".
-/

namespace ThemeJs

/-- The fixed localStorage key, STORAGE_KEY in the source. -/
def STORAGE_KEY : String := "portal-theme"

/-- The fixed default theme identifier, DEFAULT in the source. -/
def DEFAULT : String := "theme-current"

/-- A theme option element: its data-theme attribute and whether its class
list currently contains "is-active". -/
structure ThemeOption where
  datasetTheme : String
  isActive : Bool
  deriving Repr, DecidableEq

/-- The parts of the document the script reads or mutates. -/
structure Dom where
  bodyClassName : String
  options : List ThemeOption
  dropdownOpen : Bool
  hasToggle : Bool
  hasDropdown : Bool
  yearText : Option String
  wired : Bool
  deriving Repr, DecidableEq

/-- Presence (as a function) of each optional global hook. -/
structure Globals where
  recolorMap : Bool
  updatePanel : Bool
  updateAbbrBadge : Bool
  deriving Repr, DecidableEq

/-- The whole program state: DOM, the stored value under STORAGE_KEY,
whether storage access throws, hook presence, and the hook call trace. -/
structure State where
  dom : Dom
  store : Option String
  storageFails : Bool
  globals : Globals
  calls : List String
  deriving Repr, DecidableEq

/-- localStorage.getItem(STORAGE_KEY): throws when storage is unavailable,
otherwise returns the stored value (none models a null return). -/
def storageGetItem (st : State) : Except Unit (Option String) :=
  if st.storageFails then Except.error () else Except.ok st.store

/-- localStorage.setItem(STORAGE_KEY, v): throws when storage is
unavailable, otherwise overwrites the stored value. -/
def storageSetItem (st : State) (v : String) : Except Unit State :=
  if st.storageFails then Except.error ()
  else Except.ok { st with store := some v }

/-- applyTheme from the source: document.body.className = theme, then for
every .theme-option element, classList.toggle of "is-active" with the
condition opt.dataset.theme === theme. -/
def applyTheme (theme : String) (dom : Dom) : Dom :=
  { dom with
    bodyClassName := theme,
    options := dom.options.map fun opt =>
      { opt with isActive := opt.datasetTheme == theme } }

/-- setTheme from the source: try to persist the theme (catching and
ignoring any storage exception), apply it, then call each of the three
global hooks that is present as a function. -/
def setTheme (theme : String) (st : State) : State :=
  let st1 := match storageSetItem st theme with
    | Except.ok st' => st'
    | Except.error _ => st
  let st2 := { st1 with dom := applyTheme theme st1.dom }
  let st3 := if st2.globals.recolorMap
    then { st2 with calls := st2.calls ++ ["recolorMap"] } else st2
  let st4 := if st3.globals.updatePanel
    then { st3 with calls := st3.calls ++ ["updatePanel"] } else st3
  if st4.globals.updateAbbrBadge
    then { st4 with calls := st4.calls ++ ["updateAbbrBadge"] } else st4

/-- JavaScript (x || d) for x a string-or-null: null and the empty string
are falsy, so both fall through to the default. -/
def jsOrString (v : Option String) (d : String) : String :=
  match v with
  | none => d
  | some s => if s = "" then d else s

/-- loadTheme from the source: var saved = DEFAULT; inside try, saved
becomes getItem(STORAGE_KEY) || DEFAULT; a storage exception is caught and
ignored, leaving saved = DEFAULT; finally applyTheme(saved). -/
def loadTheme (st : State) : State :=
  let saved := match storageGetItem st with
    | Except.ok v => jsOrString v DEFAULT
    | Except.error _ => DEFAULT
  { st with dom := applyTheme saved st.dom }

/-- The click events the script wires handlers for, with propagation
already resolved (see the header comment): a click on the toggle, a click
outside the dropdown reaching the document handler, a click inside the
open dropdown that is not on an option, and a click on a theme option
whose data-theme attribute is t. -/
inductive Event where
  | toggleClick
  | outsideClick
  | insideDropdownClick
  | optionClick (t : String)
  deriving Repr, DecidableEq

/-- Net effect of dispatching one click event after the handlers are
wired. Toggle: stopPropagation plus classList.toggle of "open". Outside
click: the document handler removes "open". Inside click: the dropdown
handler only stops propagation. Option click: setTheme with the option's
data-theme, then remove "open" (propagation stops at the dropdown). -/
def step (e : Event) (st : State) : State :=
  match e with
  | Event.toggleClick =>
      { st with dom := { st.dom with dropdownOpen := !st.dom.dropdownOpen } }
  | Event.outsideClick =>
      { st with dom := { st.dom with dropdownOpen := false } }
  | Event.insideDropdownClick => st
  | Event.optionClick t =>
      let st1 := setTheme t st
      { st1 with dom := { st1.dom with dropdownOpen := false } }

/-- The DOMContentLoaded handler: loadTheme first; then locate the toggle
and dropdown and, if either is absent, return immediately (skipping both
the wiring and the year update); otherwise wire the handlers and, if a
year element exists, set its text to the current year. The year argument
stands for new Date().getFullYear(). -/
def initHandler (year : Nat) (st : State) : State :=
  let st1 := loadTheme st
  if !(st1.dom.hasToggle && st1.dom.hasDropdown) then st1
  else
    let st2 := { st1 with dom := { st1.dom with wired := true } }
    match st2.dom.yearText with
    | some _ => { st2 with dom := { st2.dom with yearText := some (toString year) } }
    | none => st2

/-! Helper lemmas shared by the claim theorems. -/

/-- The DOM after setTheme is exactly the DOM after applyTheme: neither
the storage write (whether it succeeds or throws) nor the hook calls touch
the DOM. -/
theorem setTheme_dom_eq (t : String) (st : State) :
    (setTheme t st).dom = applyTheme t st.dom := by
  unfold setTheme storageSetItem
  cases hf : st.storageFails <;> simp <;> split_ifs <;> simp

/-- The stored value after setTheme: the written value when storage works,
unchanged when the write throws (the exception is caught). -/
theorem setTheme_store_eq (t : String) (st : State) :
    (setTheme t st).store = if st.storageFails then st.store else some t := by
  unfold setTheme storageSetItem
  cases hf : st.storageFails <;> simp <;> split_ifs <;> simp

/-- The hook call trace after setTheme: each of the three hooks is
appended, in source order, exactly when it is present as a function. -/
theorem setTheme_calls_eq (t : String) (st : State) :
    (setTheme t st).calls =
      ((st.calls ++ (if st.globals.recolorMap then ["recolorMap"] else []))
        ++ (if st.globals.updatePanel then ["updatePanel"] else []))
        ++ (if st.globals.updateAbbrBadge then ["updateAbbrBadge"] else []) := by
  unfold setTheme storageSetItem
  cases hf : st.storageFails <;> simp <;>
    cases hr : st.globals.recolorMap <;>
    cases hp : st.globals.updatePanel <;>
    cases hb : st.globals.updateAbbrBadge <;> simp [hr, hp, hb]

/-- setTheme leaves the globals unchanged. -/
theorem setTheme_globals_eq (t : String) (st : State) :
    (setTheme t st).globals = st.globals := by
  unfold setTheme storageSetItem
  cases hf : st.storageFails <;> simp <;> split_ifs <;> simp

/-- The DOM after loadTheme is applyTheme of the resolved value: the
stored value (with null and the empty string falling back to the default)
when storage works, the default when the read throws. -/
theorem loadTheme_dom_eq (st : State) :
    (loadTheme st).dom =
      applyTheme (if st.storageFails then DEFAULT else jsOrString st.store DEFAULT) st.dom := by
  unfold loadTheme storageGetItem
  cases hf : st.storageFails <;> simp

/-- loadTheme leaves the store unchanged. -/
theorem loadTheme_store_eq (st : State) :
    (loadTheme st).store = st.store := by
  unfold loadTheme storageGetItem
  cases hf : st.storageFails <;> simp

/-- In applyTheme, every resulting option is marked active exactly when
its data-theme equals the applied theme. -/
theorem applyTheme_options_active (t : String) (dom : Dom) :
    ((applyTheme t dom).options.all
      fun opt => opt.isActive == (opt.datasetTheme == t)) = true := by
  unfold applyTheme
  simp [List.all_eq_true]

/-- applyTheme touches only the body class and the options; every other
DOM field is preserved. -/
theorem applyTheme_preserves (t : String) (dom : Dom) :
    (applyTheme t dom).dropdownOpen = dom.dropdownOpen ∧
    (applyTheme t dom).hasToggle = dom.hasToggle ∧
    (applyTheme t dom).hasDropdown = dom.hasDropdown ∧
    (applyTheme t dom).yearText = dom.yearText ∧
    (applyTheme t dom).wired = dom.wired :=
  ⟨rfl, rfl, rfl, rfl, rfl⟩

/-! Concrete example states used by the witness and counterexample
theorems. -/

/-- A page with two theme options, the dropdown open, working storage, and
two of the three hooks present. -/
def exState : State :=
  { dom :=
      { bodyClassName := "theme-current"
        options := [{ datasetTheme := "theme-dark", isActive := false },
                    { datasetTheme := "theme-current", isActive := true }]
        dropdownOpen := true
        hasToggle := true
        hasDropdown := true
        yearText := some "2000"
        wired := true }
    store := some "theme-current"
    storageFails := false
    globals := { recolorMap := true, updatePanel := false, updateAbbrBadge := true }
    calls := [] }

/-- The same page with storage access throwing. -/
def failState : State := { exState with storageFails := true }

/-- The same page with nothing stored under the key. -/
def emptyStoreState : State := { exState with store := none }

/-- The same page with the empty string stored under the key. -/
def emptyStrState : State := { exState with store := some "" }

/-- A page whose toggle element is absent but whose year element exists
with stale text. -/
def noToggleState : State :=
  { dom :=
      { bodyClassName := ""
        options := []
        dropdownOpen := false
        hasToggle := false
        hasDropdown := true
        yearText := some "old"
        wired := false }
    store := none
    storageFails := false
    globals := { recolorMap := false, updatePanel := false, updateAbbrBadge := false }
    calls := [] }

/-! Claim theorems. -/

/-- Claim C3: for every theme identifier t, applyTheme t sets the body
class to exactly t (replacing prior classes), keeps the options' data
identifiers unchanged, and marks each option active if and only if its
data identifier equals t. -/
theorem C3_applyTheme_spec (t : String) (dom : Dom) :
    (applyTheme t dom).bodyClassName = t ∧
    (applyTheme t dom).options.map ThemeOption.datasetTheme
      = dom.options.map ThemeOption.datasetTheme ∧
    ((applyTheme t dom).options.all
      fun opt => opt.isActive == (opt.datasetTheme == t)) = true := by
  refine ⟨rfl, ?_, applyTheme_options_active t dom⟩
  unfold applyTheme
  simp

/-- Claim C1: clicking the theme option carrying identifier t (with
storage working) leaves the store holding t, the body class exactly t,
exactly the options whose data identifier equals t marked active, and the
dropdown closed. -/
theorem C1_optionClick_flow (t : String) (st : State)
    (h : st.storageFails = false) :
    (step (Event.optionClick t) st).store = some t ∧
    (step (Event.optionClick t) st).dom.bodyClassName = t ∧
    ((step (Event.optionClick t) st).dom.options.all
      fun opt => opt.isActive == (opt.datasetTheme == t)) = true ∧
    (step (Event.optionClick t) st).dom.dropdownOpen = false := by
  refine ⟨?_, ?_, ?_, ?_⟩
  · simp [step, setTheme_store_eq, h]
  · simp [step, setTheme_dom_eq, applyTheme]
  · simp [step, setTheme_dom_eq, applyTheme_options_active]
  · simp [step]

/-- Witness for C1 at a concrete page and the identifier theme-dark. -/
theorem C1_optionClick_flow_witness :
    (step (Event.optionClick "theme-dark") exState).store = some "theme-dark" ∧
    (step (Event.optionClick "theme-dark") exState).dom.bodyClassName = "theme-dark" ∧
    ((step (Event.optionClick "theme-dark") exState).dom.options.all
      fun opt => opt.isActive == (opt.datasetTheme == "theme-dark")) = true ∧
    (step (Event.optionClick "theme-dark") exState).dom.dropdownOpen = false :=
  C1_optionClick_flow "theme-dark" exState rfl

/-- Claim C2: when storage access throws, the exception is caught and
ignored: setTheme still applies the theme in-memory and leaves the store
unchanged, and loadTheme falls back to the default and leaves the store
unchanged. Both functions are total in the embedding, so no exception
escapes them. -/
theorem C2_storage_failure_swallowed (t : String) (st : State)
    (h : st.storageFails = true) :
    (setTheme t st).dom.bodyClassName = t ∧
    (setTheme t st).store = st.store ∧
    (loadTheme st).dom.bodyClassName = DEFAULT ∧
    (loadTheme st).store = st.store := by
  refine ⟨?_, ?_, ?_, loadTheme_store_eq st⟩
  · rw [setTheme_dom_eq]; rfl
  · rw [setTheme_store_eq]; simp [h]
  · rw [loadTheme_dom_eq]; simp [h, applyTheme]

/-- Witness for C2 at a concrete page whose storage throws. -/
theorem C2_storage_failure_swallowed_witness :
    (setTheme "theme-dark" failState).dom.bodyClassName = "theme-dark" ∧
    (setTheme "theme-dark" failState).store = failState.store ∧
    (loadTheme failState).dom.bodyClassName = DEFAULT ∧
    (loadTheme failState).store = failState.store :=
  C2_storage_failure_swallowed "theme-dark" failState rfl

/-- Claim C4: with no stored value (or a failing read), loadTheme applies
the fixed default identifier theme-current to the body. -/
theorem C4_loadTheme_default (st : State)
    (h : st.store = none ∨ st.storageFails = true) :
    (loadTheme st).dom.bodyClassName = "theme-current" := by
  rw [loadTheme_dom_eq]
  rcases h with h | h
  · cases hf : st.storageFails <;> simp [hf, h, jsOrString, DEFAULT, applyTheme]
  · simp [h, DEFAULT, applyTheme]

/-- Witness for C4 at a concrete page with an empty store. -/
theorem C4_loadTheme_default_witness :
    (loadTheme emptyStoreState).dom.bodyClassName = "theme-current" :=
  C4_loadTheme_default emptyStoreState (Or.inl rfl)

/-- Claim C5: the dropdown state is a Bool (closed or open) and each of
the four wired click events changes it exactly as the state machine says:
toggle flips it, outside click and option selection force it closed, and
a click inside the open dropdown leaves it unchanged. The Event type
enumerates every click handler the script wires, so no other event
changes the state. -/
theorem C5_dropdown_transitions (e : Event) (st : State) :
    (step e st).dom.dropdownOpen =
      match e with
      | Event.toggleClick => !st.dom.dropdownOpen
      | Event.outsideClick => false
      | Event.insideDropdownClick => st.dom.dropdownOpen
      | Event.optionClick _ => false := by
  cases e <;> rfl

/-- Claim C6: toggling the dropdown twice returns it to its original
open or closed state. -/
theorem C6_toggle_involution (st : State) :
    (step Event.toggleClick (step Event.toggleClick st)).dom.dropdownOpen
      = st.dom.dropdownOpen := by
  simp [step]

/-- Claim C7: setTheme ends with the DOM of applyTheme (the theme is
applied before any hook runs) and appends to the call trace, in source
order, exactly those hooks that are present in the global scope: each
hook is invoked if and only if it is present. -/
theorem C7_setTheme_hooks (t : String) (st : State) :
    (setTheme t st).dom = applyTheme t st.dom ∧
    (setTheme t st).calls =
      ((st.calls ++ (if st.globals.recolorMap then ["recolorMap"] else []))
        ++ (if st.globals.updatePanel then ["updatePanel"] else []))
        ++ (if st.globals.updateAbbrBadge then ["updateAbbrBadge"] else []) :=
  ⟨setTheme_dom_eq t st, setTheme_calls_eq t st⟩

/-- Counterexample to C8: on a page whose toggle element is absent but
whose year element exists with text old, the early return in the
DOMContentLoaded handler skips the year update, so the year element does
not hold the current year as the claim states. -/
theorem C8_year_not_set_cex :
    noToggleState.dom.hasToggle = false ∧
    noToggleState.dom.yearText = some "old" ∧
    (initHandler 2026 noToggleState).dom.yearText = some "old" ∧
    (some "old" : Option String) ≠ some (toString 2026) := by
  refine ⟨rfl, rfl, rfl, by decide⟩

/-- Claim C8 as amended: if the toggle or the dropdown is absent, the
theme is still applied in step 1, but the handler returns early and skips
everything after the guard, including the year update: the year element's
text, the wiring flag and the store are left unchanged. -/
theorem C8_init_guard_amended (year : Nat) (st : State)
    (h : st.dom.hasToggle = false ∨ st.dom.hasDropdown = false) :
    (initHandler year st).dom.bodyClassName = (loadTheme st).dom.bodyClassName ∧
    (initHandler year st).dom.yearText = st.dom.yearText ∧
    (initHandler year st).dom.wired = st.dom.wired ∧
    (initHandler year st).store = st.store := by
  have h1 : (loadTheme st).dom.hasToggle = st.dom.hasToggle := by
    rw [loadTheme_dom_eq]; rfl
  have h2 : (loadTheme st).dom.hasDropdown = st.dom.hasDropdown := by
    rw [loadTheme_dom_eq]; rfl
  have h3 : (loadTheme st).dom.yearText = st.dom.yearText := by
    rw [loadTheme_dom_eq]; rfl
  have h4 : (loadTheme st).dom.wired = st.dom.wired := by
    rw [loadTheme_dom_eq]; rfl
  have hcond : ((loadTheme st).dom.hasToggle && (loadTheme st).dom.hasDropdown) = false := by
    rw [h1, h2]
    rcases h with h | h <;> simp [h]
  have key : initHandler year st = loadTheme st := by
    unfold initHandler
    simp [hcond]
  rw [key]
  exact ⟨rfl, h3, h4, loadTheme_store_eq st⟩

/-- Witness for the amended C8 at the concrete page with no toggle. -/
theorem C8_init_guard_amended_witness :
    (initHandler 2026 noToggleState).dom.bodyClassName
      = (loadTheme noToggleState).dom.bodyClassName ∧
    (initHandler 2026 noToggleState).dom.yearText = noToggleState.dom.yearText ∧
    (initHandler 2026 noToggleState).dom.wired = noToggleState.dom.wired ∧
    (initHandler 2026 noToggleState).store = noToggleState.store :=
  C8_init_guard_amended 2026 noToggleState (Or.inl rfl)

/-- Claim C9: a stored empty string is falsy under the JavaScript
or-operator, so loadTheme treats it as absent and applies the default
identifier theme-current. -/
theorem C9_empty_string_default (st : State)
    (h1 : st.store = some "") (h2 : st.storageFails = false) :
    (loadTheme st).dom.bodyClassName = "theme-current" := by
  rw [loadTheme_dom_eq]
  simp [h1, h2, jsOrString, DEFAULT, applyTheme]

/-- Witness for C9 at a concrete page storing the empty string. -/
theorem C9_empty_string_default_witness :
    (loadTheme emptyStrState).dom.bodyClassName = "theme-current" :=
  C9_empty_string_default emptyStrState rfl rfl

/-- Claim C10: loadTheme never writes to the store: the stored value is
unchanged, and in particular when nothing is stored the default is applied
to the body but not persisted. -/
theorem C10_loadTheme_no_write (st : State) :
    (loadTheme st).store = st.store ∧
    (st.store = none →
      (loadTheme st).dom.bodyClassName = DEFAULT ∧ (loadTheme st).store = none) := by
  refine ⟨loadTheme_store_eq st, fun h => ⟨?_, ?_⟩⟩
  · rw [loadTheme_dom_eq]
    cases hf : st.storageFails <;> simp [hf, h, jsOrString, applyTheme]
  · rw [loadTheme_store_eq]; exact h

/-- Witness for C10 at a concrete page with an empty store. -/
theorem C10_loadTheme_no_write_witness :
    (loadTheme emptyStoreState).store = emptyStoreState.store ∧
    (loadTheme emptyStoreState).dom.bodyClassName = DEFAULT ∧
    (loadTheme emptyStoreState).store = none := by
  have h := C10_loadTheme_no_write emptyStoreState
  exact ⟨h.1, (h.2 rfl).1, (h.2 rfl).2⟩

end ThemeJs
